import Mathlib

/-!
Verification of the Logic-Circuit-Simulator core against its specification.

The definitions below are a shallow embedding of the relevant parts of the
source code:
  * `src/simulator/src/components/Demux.ts` (classes `Demux` and `HalfAdder`),
  * `src/simulator/src/components/InputRandom.ts` (classes `InputRandom` and
    `Passthrough`, and the `PassthroughDef` parameter validation),
  * the `FileManager` load/save module (`doLoadFromJson`, `getJSON_Workspace`).

Pure functions of the source become Lean functions; mutable component state
becomes explicit state passing; JavaScript `undefined`/`null` become `Option`.
Helper functions of the repository that are not part of the given sources
(`displayValuesFromArray`, `Flipflop.isClockTrigger`, `validate`, `findNode`,
the wire manager and the JSON stringifier) are modelled from the
specification; each such definition is marked `Modelled from the spec:` in its
doc comment.
-/

/-- The four-valued logic domain of the simulator:
`LogicValue = boolean | Unknown | HighImpedance` in `utils.ts`. -/
inductive LogicValue where
  | ofBool : Bool → LogicValue
  | Unknown : LogicValue
  | HighImpedance : LogicValue
deriving DecidableEq, Repr

/-- `isUnknown` from `utils.ts`: tests for the `Unknown` value. -/
def isUnknown : LogicValue → Bool
  | .Unknown => true
  | _ => false

/-- `isHighImpedance` from `utils.ts`: tests for the hi-Z value. -/
def isHighImpedance : LogicValue → Bool
  | .HighImpedance => true
  | _ => false

/-- JavaScript numeric coercion `+v` applied to a boolean logic value
(only reached on `true`/`false` in the guarded source paths). -/
def LogicValue.toNumber : LogicValue → Nat
  | .ofBool b => if b then 1 else 0
  | _ => 0

/-! ## HalfAdder (`src/simulator/src/components/Demux.ts`, lines 536-553) -/

/-- `HalfAdder.doRecalcValue`: reads inputs A and B; any `Unknown` or
hi-Z input yields `(Unknown, Unknown)`; otherwise the numeric sum
`(+a) + (+b)` is dispatched to `(sum, carry)` pairs. -/
def HalfAdder.doRecalcValue (a b : LogicValue) : LogicValue × LogicValue :=
  if isUnknown a || isUnknown b || isHighImpedance a || isHighImpedance b then
    (.Unknown, .Unknown)
  else
    match a.toNumber + b.toNumber with
    | 0 => (.ofBool false, .ofBool false)
    | 1 => (.ofBool true, .ofBool false)
    | 2 => (.ofBool false, .ofBool true)
    | _ => (.ofBool false, .ofBool false)

/-! ## Demux (`src/simulator/src/components/Demux.ts`, lines 41-345) -/

/-- Modelled from the spec: `displayValuesFromArray(values, false)[1]` from
`drawutils.ts` (not among the given sources) combines a bus of logic values
into its binary numeric value, least-significant bit first; a bus containing
any `Unknown` bit has no defined value (per section 4.1 a hi-Z operand used
as a logic input is likewise treated as `Unknown`), represented here as
`none`. -/
def displayValuesFromArray : List LogicValue → Option Nat
  | [] => some 0
  | v :: rest =>
    match v, displayValuesFromArray rest with
    | .ofBool b, some n => some ((if b then 1 else 0) + 2 * n)
    | _, _ => none

/-- The configuration of a `Demux` component: `numFrom` input bits per group,
`numTo` total output bits, and the `disconnectedAsHighZ` flag
(`DemuxDefaults.disconnectedAsHighZ = false`). -/
structure Demux where
  numFrom : Nat
  numTo : Nat
  disconnectedAsHighZ : Bool
deriving DecidableEq, Repr

/-- `this.numGroups = this.numTo / this.numFrom` (constructor, line 163). -/
def Demux.numGroups (d : Demux) : Nat := d.numTo / d.numFrom

/-- `Demux.doRecalcValue` (lines 188-212): combine the selector inputs into
`sel`; if `sel` is `Unknown`, all `numTo` outputs are `Unknown`; otherwise
emit, group by group, the data inputs for the group equal to `sel` and the
`disconnected` constant for every other group. `ins` are the values of the
data input nodes `INPUT.I`, `sels` those of the selector nodes `INPUT.S`. -/
def Demux.doRecalcValue (d : Demux) (ins sels : List LogicValue) : List LogicValue :=
  match displayValuesFromArray sels with
  | none => List.replicate d.numTo .Unknown
  | some sel =>
    let disconnected : LogicValue :=
      if d.disconnectedAsHighZ then .HighImpedance else .ofBool false
    ((List.range d.numGroups).map (fun g =>
      if g = sel then ins else List.replicate d.numFrom disconnected)).flatten

/-- The `Demux1To4` instance (lines 365-379): `numFrom = 1`, `numSel = 2`,
`numTo = 4`, default configuration. -/
def Demux1To4 : Demux := { numFrom := 1, numTo := 4, disconnectedAsHighZ := false }

/-! ## Claims C2 and C3 -/

/-- A list obtained by flattening `n` chunks of constant length `k` has the
`g`-th chunk at positions `[g*k, (g+1)*k)`. -/
theorem flatten_map_range_take_drop (k : Nat) :
    ∀ (n : Nat) (f : Nat → List LogicValue) (g : Nat), g < n →
      (∀ i, (f i).length = k) →
      ((((List.range n).map f).flatten).drop (g * k)).take k = f g := by
  intro n
  induction n with
  | zero => intro f g hg _; omega
  | succ m ih =>
    intro f g hg hlen
    rw [List.range_succ_eq_map]
    simp only [List.map_cons, List.map_map, List.flatten_cons]
    cases g with
    | zero =>
      simp only [Nat.zero_mul, List.drop_zero]
      rw [List.take_append_of_le_length (by rw [hlen 0])]
      simp [List.take_of_length_le, hlen 0]
    | succ g' =>
      have hdrop : (f 0 ++ (List.map (f ∘ (fun i => i + 1)) (List.range m)).flatten).drop
          ((g' + 1) * k) = ((List.map (f ∘ (fun i => i + 1)) (List.range m)).flatten).drop
          (g' * k) := by
        rw [Nat.succ_mul, Nat.add_comm (g' * k) k, ← List.drop_drop]
        congr 1
        rw [List.drop_append_of_le_length (by rw [hlen 0])]
        simp [List.drop_of_length_le, hlen 0]
      rw [hdrop]
      have := ih (f ∘ (fun i => i + 1)) g' (by omega) (fun i => hlen (i + 1))
      simpa using this

/-- C2: for every Demux recompute, an `Unknown` combined selector makes all
`numTo` outputs `Unknown`; otherwise the selected group carries the data
inputs and every other group carries `false`, or `HighImpedance` when
`disconnectedAsHighZ` is set; concretely, `Demux1To4` with selector value 2
and input `true` outputs `[false, false, true, false]`. -/
theorem C2_demux_recalc (d : Demux) (ins sels : List LogicValue)
    (hlen : ins.length = d.numFrom) :
    (displayValuesFromArray sels = none →
      d.doRecalcValue ins sels = List.replicate d.numTo .Unknown) ∧
    (∀ sel, displayValuesFromArray sels = some sel →
      ∀ g, g < d.numGroups →
        ((d.doRecalcValue ins sels).drop (g * d.numFrom)).take d.numFrom =
          if g = sel then ins
          else List.replicate d.numFrom
            (if d.disconnectedAsHighZ then .HighImpedance else .ofBool false)) ∧
    Demux1To4.doRecalcValue [.ofBool true] [.ofBool false, .ofBool true] =
      [.ofBool false, .ofBool false, .ofBool true, .ofBool false] := by
  refine ⟨?_, ?_, by decide⟩
  · intro h
    simp [Demux.doRecalcValue, h]
  · intro sel hsel g hg
    have hchunk : ∀ i, ((fun g => if g = sel then ins
        else List.replicate d.numFrom
          (if d.disconnectedAsHighZ then LogicValue.HighImpedance
           else LogicValue.ofBool false)) i).length = d.numFrom := by
      intro i
      by_cases hi : i = sel <;> simp [hi, hlen]
    have := flatten_map_range_take_drop d.numFrom d.numGroups
      (fun g => if g = sel then ins
        else List.replicate d.numFrom
          (if d.disconnectedAsHighZ then LogicValue.HighImpedance
           else LogicValue.ofBool false))
      g hg hchunk
    simpa [Demux.doRecalcValue, hsel] using this

/-- Witness for C2 at concrete inputs: an `Unknown` selector bit on
`Demux1To4` yields four `Unknown` outputs. -/
theorem C2_demux_recalc_witness :
    Demux1To4.doRecalcValue [.ofBool true] [.Unknown, .ofBool false] =
      List.replicate 4 .Unknown :=
  (C2_demux_recalc Demux1To4 [.ofBool true] [.Unknown, .ofBool false]
    (by decide)).1 (by decide)

/-- C3: the half-adder maps `(false,false)` to `(false,false)`, `(true,false)`
and `(false,true)` to `(true,false)`, `(true,true)` to `(false,true)`, and any
input that is `Unknown` or `HighImpedance` to `(Unknown, Unknown)`. -/
theorem C3_halfAdder_recalc :
    HalfAdder.doRecalcValue (.ofBool false) (.ofBool false) = (.ofBool false, .ofBool false) ∧
    HalfAdder.doRecalcValue (.ofBool true) (.ofBool false) = (.ofBool true, .ofBool false) ∧
    HalfAdder.doRecalcValue (.ofBool false) (.ofBool true) = (.ofBool true, .ofBool false) ∧
    HalfAdder.doRecalcValue (.ofBool true) (.ofBool true) = (.ofBool false, .ofBool true) ∧
    ∀ a b : LogicValue,
      (isUnknown a || isUnknown b || isHighImpedance a || isHighImpedance b) = true →
        HalfAdder.doRecalcValue a b = (.Unknown, .Unknown) := by
  refine ⟨by decide, by decide, by decide, by decide, ?_⟩
  intro a b h
  simp [HalfAdder.doRecalcValue, h]

/-- Witness for C3 at a concrete input: an `Unknown` first input yields
`(Unknown, Unknown)`. -/
theorem C3_halfAdder_recalc_witness :
    HalfAdder.doRecalcValue .Unknown (.ofBool true) = (.Unknown, .Unknown) :=
  C3_halfAdder_recalc.2.2.2.2 .Unknown (.ofBool true) (by decide)

/-! ## InputRandom (`src/simulator/src/components/InputRandom.ts`) -/

/-- The `EdgeTrigger` enumeration from `FlipflopOrLatch.ts`. -/
inductive EdgeTrigger where
  | rising : EdgeTrigger
  | falling : EdgeTrigger
deriving DecidableEq, Repr

/-- Modelled from the spec: `Flipflop.isClockTrigger` from
`FlipflopOrLatch.ts` (not among the given sources) is the general
edge-detector protocol of section 4.4: a rising trigger qualifies exactly on
the transition `false → true`, a falling trigger exactly on `true → false`;
any transition to or from `Unknown` (or hi-Z) is a non-edge. -/
def Flipflop.isClockTrigger (trigger : EdgeTrigger) (prev value : LogicValue) : Bool :=
  match trigger with
  | .rising => prev = LogicValue.ofBool false && value = LogicValue.ofBool true
  | .falling => prev = LogicValue.ofBool true && value = LogicValue.ofBool false

/-- `InputRandomDefaults` (lines 22-26): `prob1 = 0.5`, `showProb = false`,
`trigger = rising`. JavaScript numbers are modelled as rationals. -/
structure InputRandomDefaults where
  prob1 : ℚ := 1 / 2
  showProb : Bool := false
  trigger : EdgeTrigger := .rising

/-- The saved-data record accepted by the `InputRandom` constructor
(`InputRandomRepr`): every field is optional. -/
structure InputRandomRepr where
  prob1 : Option ℚ := none
  showProb : Option Bool := none
  trigger : Option EdgeTrigger := none
  name : Option String := none

/-- The mutable fields of an `InputRandom` component (lines 36-40). -/
structure InputRandom where
  prob1 : ℚ
  showProb : Bool
  lastClock : LogicValue
  trigger : EdgeTrigger
  name : Option String

/-- The `InputRandom` constructor (lines 42-56): fields start at their
defaults; a non-null saved record overrides them, with `prob1` stored as
`Math.max(0, Math.min(1, savedData.prob1))` when defined. -/
def InputRandom.construct (savedData : Option InputRandomRepr) : InputRandom :=
  let base : InputRandom :=
    { prob1 := 1 / 2, showProb := false, lastClock := .Unknown,
      trigger := .rising, name := none }
  match savedData with
  | none => base
  | some sd =>
    { prob1 := match sd.prob1 with
        | some p => max 0 (min 1 p)
        | none => base.prob1
      showProb := sd.showProb.getD base.showProb
      lastClock := base.lastClock
      trigger := sd.trigger.getD base.trigger
      name := sd.name }

/-- `InputRandom.doRecalcValue` (lines 89-98): store the new clock input in
`_lastClock`; on a non-qualifying transition return the current output value
unchanged; on a qualifying edge draw `r < _prob1` where `r` is the value
produced by `Math.random()`, passed here as an oracle argument. Returns the
updated state together with the output value. -/
def InputRandom.doRecalcValue (s : InputRandom) (clockInput : LogicValue)
    (r : ℚ) (currentValue : LogicValue) : InputRandom × LogicValue :=
  let prevClock := s.lastClock
  let s2 := { s with lastClock := clockInput }
  if Flipflop.isClockTrigger s.trigger prevClock clockInput then
    (s2, .ofBool (decide (r < s.prob1)))
  else
    (s2, currentValue)

/-- The state-mutating operations of a live `InputRandom` component:
`doSetName` (line 163), `doSetShowProb` (line 168), and the recompute step;
no other method of the class writes any field. -/
inductive InputRandomOp where
  | doSetName (name : Option String) : InputRandomOp
  | doSetShowProb (showProb : Bool) : InputRandomOp
  | doRecalcValue (clockInput : LogicValue) (r : ℚ) (currentValue : LogicValue) : InputRandomOp

/-- Applying one operation to the component state. -/
def InputRandom.applyOp (s : InputRandom) : InputRandomOp → InputRandom
  | .doSetName n => { s with name := n }
  | .doSetShowProb b => { s with showProb := b }
  | .doRecalcValue clk r v => (s.doRecalcValue clk r v).1

/-! ## Claims C4 and C9 -/

/-- C4: a recompute of the edge-triggered random input returns the output
value unchanged whenever the transition from the stored clock to the new
clock input is not a qualifying edge; transitions to or from `Unknown` never
qualify, and under a rising trigger `true → false` does not qualify; a new
value is drawn only on a qualifying edge. -/
theorem C4_inputRandom_edge (s : InputRandom) (clk : LogicValue) (r : ℚ)
    (v : LogicValue) :
    (Flipflop.isClockTrigger s.trigger s.lastClock clk = false →
      (s.doRecalcValue clk r v).2 = v) ∧
    (∀ (t : EdgeTrigger) (w : LogicValue),
      Flipflop.isClockTrigger t .Unknown w = false ∧
      Flipflop.isClockTrigger t w .Unknown = false) ∧
    Flipflop.isClockTrigger .rising (.ofBool true) (.ofBool false) = false := by
  refine ⟨?_, ?_, by decide⟩
  · intro h
    simp [InputRandom.doRecalcValue, h]
  · intro t w
    cases t <;> cases w <;> simp [Flipflop.isClockTrigger]

/-- Witness for C4 at a concrete input: with a rising trigger and stored
clock `true`, the new clock input `false` leaves the output `true`
unchanged. -/
theorem C4_inputRandom_edge_witness :
    ((InputRandom.mk (1/2) false (.ofBool true) .rising none).doRecalcValue
      (.ofBool false) 0 (.ofBool true)).2 = .ofBool true :=
  (C4_inputRandom_edge (InputRandom.mk (1/2) false (.ofBool true) .rising none)
    (.ofBool false) 0 (.ofBool true)).1 (by decide)

/-- C9: when a saved record defines `prob1`, the constructor stores
`max(0, min(1, prob1))`; after any construction `0 ≤ _prob1 ≤ 1`; and every
operation of the component leaves `_prob1` unchanged. -/
theorem C9_inputRandom_prob1_invariant :
    (∀ (sd : InputRandomRepr) (p : ℚ), sd.prob1 = some p →
      (InputRandom.construct (some sd)).prob1 = max 0 (min 1 p)) ∧
    (∀ sd : Option InputRandomRepr,
      0 ≤ (InputRandom.construct sd).prob1 ∧ (InputRandom.construct sd).prob1 ≤ 1) ∧
    (∀ (s : InputRandom) (op : InputRandomOp), (s.applyOp op).prob1 = s.prob1) := by
  refine ⟨?_, ?_, ?_⟩
  · intro sd p hp
    simp [InputRandom.construct, hp]
  · intro sd
    match sd with
    | none => exact ⟨by norm_num [InputRandom.construct], by norm_num [InputRandom.construct]⟩
    | some sd =>
      match h : sd.prob1 with
      | none =>
        exact ⟨by norm_num [InputRandom.construct, h],
          by norm_num [InputRandom.construct, h]⟩
      | some p =>
        constructor
        · simp [InputRandom.construct, h]
        · simp only [InputRandom.construct, h]
          exact max_le (by norm_num) (min_le_left 1 p)
  · intro s op
    cases op with
    | doSetName n => rfl
    | doSetShowProb b => rfl
    | doRecalcValue clk r v =>
      simp only [InputRandom.applyOp, InputRandom.doRecalcValue]
      split <;> rfl

/-- Witness for C9 at a concrete input: a saved `prob1` of `3/2` is stored
clamped to `1`. -/
theorem C9_inputRandom_prob1_invariant_witness :
    (InputRandom.construct (some { prob1 := some (3/2) })).prob1 = max 0 (min 1 (3/2)) :=
  C9_inputRandom_prob1_invariant.1 { prob1 := some (3/2) } (3/2) rfl

/-! ## Passthrough (`src/simulator/src/components/InputRandom.ts`, second
file part, lines 199-457) -/

/-- The `WireStyles` enumeration from `Wire.ts`. -/
inductive WireStyle where
  | auto : WireStyle
  | straight : WireStyle
  | bezier : WireStyle
deriving DecidableEq, Repr

/-- A node reference as seen from a wire end: its identity and whether the
object is an instance of `NodeOut` (an output node). -/
structure NodeRef where
  id : Nat
  isNodeOut : Bool
deriving DecidableEq, Repr

/-- A wire as used by `Passthrough.destroy`: a possibly-null start node, a
possibly-null end node, and an optional style. -/
structure PTWire where
  startNode : Option NodeRef
  endNode : Option NodeRef
  style : Option WireStyle
deriving DecidableEq, Repr

/-- The connectivity of a `Passthrough` component relevant to `destroy`:
per input bit `i`, the incoming wire of `inputs.I[i]` (if any); per output
bit `i`, the outgoing wires of `outputs.O[i]`. -/
structure Passthrough where
  numBits : Nat
  incomingWireI : List (Option PTWire)
  outgoingWiresO : List (List PTWire)
deriving DecidableEq, Repr

/-- The collection loop of `Passthrough.destroy` (lines 273-289): for each
bit `i`, take `inputs.I[i].incomingWire?.startNode`; skip it unless it is a
`NodeOut`; pair it with the end nodes and styles of the outgoing wires of
`outputs.O[i]` whose end node is not null; keep the pair only when that list
is non-empty. -/
def Passthrough.savedWireEnds (p : Passthrough) :
    List (NodeRef × List (NodeRef × Option WireStyle)) :=
  (List.range p.numBits).filterMap (fun i =>
    match ((p.incomingWireI[i]?).join).bind (fun w => w.startNode) with
    | none => none
    | some nodeOut =>
      if nodeOut.isNodeOut then
        let nodeIns := ((p.outgoingWiresO[i]?).getD []).filterMap
          (fun w => w.endNode.map (fun e => (e, w.style)))
        if nodeIns.length > 0 then some (nodeOut, nodeIns) else none
      else none)

/-- `Passthrough.destroy` (lines 269-310): after severing the component, for
each saved pair the wire manager's two `addNode` calls re-create a direct
wire from the saved output node to the saved destination node (modelled from
the spec: paired `addNode` calls create one wire), and `doSetStyle` restores
the saved style. Returns the list of re-created wires. -/
def Passthrough.destroy (p : Passthrough) : List PTWire :=
  ((p.savedWireEnds).map (fun pr =>
    pr.2.map (fun ns =>
      { startNode := some pr.1, endNode := some ns.1, style := ns.2 : PTWire }))).flatten

/-! ## PassthroughDef.validateParams (lines 222-225) -/

/-- Modelled from the spec: `validate` from `utils.ts` (not among the given
sources) returns the candidate value when it is among the allowed values and
the default otherwise; an undefined candidate falls back to the default. -/
def validate (candidate : Option Nat) (allowed : List Nat) (deflt : Nat) : Nat :=
  match candidate with
  | none => deflt
  | some v => if v ∈ allowed then v else deflt

/-- `PassthroughDef.validateParams`: `validate(bits, [1, 2, 4, 8, 16],
defaults.bits, "Passthrough width")` with `paramDefaults.bits = 1`. -/
def PassthroughDef.validateParams (bits : Option Nat) : Nat :=
  validate bits [1, 2, 4, 8, 16] 1

/-! ## Claims C8 and C10 -/

/-- C8: when input bit `i` of a Passthrough has an incoming wire whose start
is an output node and output bit `i` has an outgoing wire to destination
`e`, destroying the component re-creates the direct wire from that output
node to `e`, carrying the style of the outgoing wire it replaces. -/
theorem C8_passthrough_destroy (p : Passthrough) (i : Nat) (iw : PTWire)
    (n : NodeRef) (w : PTWire) (e : NodeRef)
    (hi : i < p.numBits)
    (hiw : p.incomingWireI[i]? = some (some iw))
    (hstart : iw.startNode = some n)
    (hout : n.isNodeOut = true)
    (hw : w ∈ (p.outgoingWiresO[i]?).getD [])
    (hend : w.endNode = some e) :
    ({ startNode := some n, endNode := some e, style := w.style : PTWire }) ∈
      p.destroy := by
  have hpair : (e, w.style) ∈ ((p.outgoingWiresO[i]?).getD []).filterMap
      (fun w => w.endNode.map (fun e => (e, w.style))) := by
    rw [List.mem_filterMap]
    exact ⟨w, hw, by rw [hend]; rfl⟩
  have hlen : (((p.outgoingWiresO[i]?).getD []).filterMap
      (fun w => w.endNode.map (fun e => (e, w.style)))).length > 0 :=
    List.length_pos.mpr (List.ne_nil_of_mem hpair)
  have hsaved : (n, ((p.outgoingWiresO[i]?).getD []).filterMap
      (fun w => w.endNode.map (fun e => (e, w.style)))) ∈ p.savedWireEnds := by
    rw [Passthrough.savedWireEnds, List.mem_filterMap]
    refine ⟨i, List.mem_range.mpr hi, ?_⟩
    rw [hiw]
    have hsel : ((some (some iw) : Option (Option PTWire)).join).bind
        (fun w => w.startNode) = some n := by
      simp [Option.join, hstart]
    rw [hsel]
    simp [hout, hlen]
  rw [Passthrough.destroy, List.mem_flatten]
  refine ⟨_, List.mem_map_of_mem _ hsaved, ?_⟩
  have := List.mem_map_of_mem
    (fun ns => { startNode := some n, endNode := some ns.1, style := ns.2 : PTWire }) hpair
  simpa using this

/-- Witness for C8 at a concrete input: a 1-bit passthrough between node 10
(an output node) and destination node 20 with a straight-styled wire. -/
theorem C8_passthrough_destroy_witness :
    ({ startNode := some ⟨10, true⟩, endNode := some ⟨20, false⟩,
       style := some .straight : PTWire }) ∈
      (Passthrough.mk 1
        [some ⟨some ⟨10, true⟩, some ⟨1, false⟩, none⟩]
        [[⟨some ⟨2, true⟩, some ⟨20, false⟩, some .straight⟩]]).destroy :=
  C8_passthrough_destroy
    (Passthrough.mk 1
      [some ⟨some ⟨10, true⟩, some ⟨1, false⟩, none⟩]
      [[⟨some ⟨2, true⟩, some ⟨20, false⟩, some .straight⟩]])
    0 ⟨some ⟨10, true⟩, some ⟨1, false⟩, none⟩ ⟨10, true⟩
    ⟨some ⟨2, true⟩, some ⟨20, false⟩, some .straight⟩ ⟨20, false⟩
    (by decide) (by decide) (by decide) (by decide) (by decide) (by decide)

/-- C10: `PassthroughDef.validateParams` returns the requested width when it
is one of `{1, 2, 4, 8, 16}`, returns the default width 1 for every other
requested value, and its result is always a supported width. -/
theorem C10_passthrough_validateParams :
    (∀ w : Nat, w ∈ [1, 2, 4, 8, 16] → PassthroughDef.validateParams (some w) = w) ∧
    (∀ w : Nat, w ∉ [1, 2, 4, 8, 16] → PassthroughDef.validateParams (some w) = 1) ∧
    (∀ bits : Option Nat, PassthroughDef.validateParams bits ∈ [1, 2, 4, 8, 16]) := by
  refine ⟨?_, ?_, ?_⟩
  · intro w hw
    simp [PassthroughDef.validateParams, validate, hw]
  · intro w hw
    simp [PassthroughDef.validateParams, validate, hw]
  · intro bits
    match bits with
    | none => decide
    | some v =>
      by_cases hv : v ∈ [1, 2, 4, 8, 16] <;>
        simp [PassthroughDef.validateParams, validate, hv]

/-- Witness for C10 at concrete inputs: width 8 is kept, width 3 falls back
to the default 1. -/
theorem C10_passthrough_validateParams_witness :
    PassthroughDef.validateParams (some 8) = 8 ∧
    PassthroughDef.validateParams (some 3) = 1 :=
  ⟨C10_passthrough_validateParams.1 8 (by decide),
   C10_passthrough_validateParams.2.1 3 (by decide)⟩

/-! ## FileManager (`src/unnamed/part_000`) -/

/-- A `LogicInput` component rebuilt from a saved descriptor (descriptors are
abstracted as natural numbers). -/
structure LogicInput where
  descr : Nat
deriving DecidableEq, Repr

/-- A `LogicOutput` component rebuilt from a saved descriptor. -/
structure LogicOutput where
  descr : Nat
deriving DecidableEq, Repr

/-- A `FourBitDisplay` component rebuilt from a saved descriptor. -/
structure FourBitDisplay where
  descr : Nat
deriving DecidableEq, Repr

/-- An `AsciiDisplay` component rebuilt from a saved descriptor. -/
structure AsciiDisplay where
  descr : Nat
deriving DecidableEq, Repr

/-- A `BarDisplay` component rebuilt from a saved descriptor. -/
structure BarDisplay where
  descr : Nat
deriving DecidableEq, Repr

/-- Modelled from the spec: `new Clock(parsedVals)` (the `Clock` class is not
among the given sources) stores the descriptor it is constructed from;
`none` models a JavaScript `undefined` constructor argument (out-of-range
index into the source array). -/
structure Clock where
  descr : Option Nat
deriving DecidableEq, Repr

/-- A gate produced by `GateFactory.make` from a saved descriptor. -/
structure Gate where
  descr : Nat
deriving DecidableEq, Repr

/-- The parsed JSON document accepted by `doLoadFromJson`: every field is
optional (`"field" in parsedContents` tests). `inField` stands for the
field named `in` (a Lean keyword). A wire entry is a pair of node ids whose
second element may be null/undefined. -/
structure ParsedDoc where
  inField : Option (List Nat) := none
  out : Option (List Nat) := none
  displays : Option (List Nat) := none
  displaysA : Option (List Nat) := none
  displaysB : Option (List Nat) := none
  clocks : Option (List Nat) := none
  gates : Option (List Nat) := none
  wires : Option (List (Nat × Option Nat)) := none
deriving DecidableEq, Repr

/-- The global simulator state touched by the `FileManager`: the component
registries from `simulator.js`, the wire list of `wireMng`, the live-node
registry of `Component.js`, and the manager's own `isLoadingState` flag. -/
structure SimState where
  logicInputs : List LogicInput
  logicOutputs : List LogicOutput
  displays : List FourBitDisplay
  displaysA : List AsciiDisplay
  displaysB : List BarDisplay
  clocks : List Clock
  gates : List Gate
  wires : List (Nat × Nat)
  liveNodes : List Nat
  isLoadingState : Bool
deriving DecidableEq, Repr

/-- The empty simulator state. -/
def SimState.initial : SimState :=
  { logicInputs := [], logicOutputs := [], displays := [], displaysA := [],
    displaysB := [], clocks := [], gates := [], wires := [], liveNodes := [],
    isLoadingState := false }

/-- Modelled from the spec: `findNode` from `Component.js` (not among the
given sources) resolves a node id in the live-node registry; a wire entry
whose referenced node ids cannot be resolved in the just-built graph is
skipped (section 6), so resolution fails exactly when the id is not
registered. -/
def findNode (registry : List Nat) (id : Nat) : Option Nat :=
  if id ∈ registry then some id else none

/-- The `wires` loop of `doLoadFromJson` (lines 166-180): an entry whose
second id is null/undefined is skipped; an entry either of whose ids fails
to resolve is skipped; otherwise the two `wireMng.addNode` calls create the
wire (modelled from the spec: paired `addNode` calls create one wire). -/
def loadWires (registry : List Nat) : List (Nat × Option Nat) → List (Nat × Nat)
  | [] => []
  | e :: rest =>
    match e.2 with
    | none => loadWires registry rest
    | some id2 =>
      match findNode registry e.1, findNode registry id2 with
      | some n1, some n2 => (n1, n2) :: loadWires registry rest
      | _, _ => loadWires registry rest

/-- The outcome of a call to `doLoadFromJson`: either a normal return with
the boolean result and the resulting state, or an uncaught JavaScript
`TypeError` propagating out of the call (the state at the throw — a
cleared, partially rebuilt graph — escapes to the caller un-modelled; no
claim depends on its contents). -/
inductive LoadResult where
  | returned : Bool → SimState → LoadResult
  | thrownTypeError : LoadResult
deriving DecidableEq, Repr

/-- The boolean result of a load that returned normally (`none` when the
call threw). -/
def LoadResult.returnValue : LoadResult → Option Bool
  | .returned b _ => some b
  | .thrownTypeError => none

/-- The final state of a load that returned normally (`none` when the call
threw). -/
def LoadResult.finalState : LoadResult → Option SimState
  | .returned _ st => some st
  | .thrownTypeError => none

/-- `FileManager.doLoadFromJson` (lines 39-183): set `isLoadingState`; parse
the content (`parse` models `JSON.parse`, `none` modelling a parse
exception), returning `false` with the graph untouched on failure; on
success clear every registry and rebuild field by field. The `clocks` loop
(lines 98-103) iterates over `parsedContents.clocks.length` but reads
`parsedContents.displaysB[i]`: when it runs at least one iteration while
the `displaysB` field is absent, indexing the undefined
`parsedContents.displaysB` throws a `TypeError` that propagates uncaught
out of the call (`thrownTypeError`); when `displaysB` is present, an
out-of-range index yields `undefined` and the clock descriptor is `none`.
`mkNodes` models (from the spec) the node registry created by the component
constructors of the earlier steps; wires are added last from it. -/
def FileManager.doLoadFromJson (parse : String → Option ParsedDoc)
    (mkNodes : ParsedDoc → List Nat) (st : SimState) (content : String) :
    LoadResult :=
  let st1 := { st with isLoadingState := true }
  match parse content with
  | none => .returned false st1
  | some doc =>
    if (doc.clocks.getD []).length > 0 && doc.displaysB.isNone then
      .thrownTypeError
    else
      let nodes := mkNodes doc
      let built : SimState :=
        { isLoadingState := true
          logicInputs := (doc.inField.getD []).map LogicInput.mk
          logicOutputs := (doc.out.getD []).map LogicOutput.mk
          displays := (doc.displays.getD []).map FourBitDisplay.mk
          displaysA := (doc.displaysA.getD []).map AsciiDisplay.mk
          displaysB := (doc.displaysB.getD []).map BarDisplay.mk
          clocks := (List.range (doc.clocks.getD []).length).map
            (fun i => Clock.mk (doc.displaysB.getD [])[i]?)
          gates := (doc.gates.getD []).map Gate.mk
          liveNodes := nodes
          wires := loadWires nodes (doc.wires.getD []) }
      .returned true built

/-- The wire entries the `wires` loop does not skip: the second id is
present and both ids resolve. -/
def goodWireEntry (registry : List Nat) (e : Nat × Option Nat) : Bool :=
  match e.2 with
  | none => false
  | some id2 => (findNode registry e.1).isSome && (findNode registry id2).isSome

/-! ## Save protocol (`FileManager.getJSON_Workspace`, lines 194-249) -/

/-- The field names `getJSON_Workspace` stores in the workspace record
(lines 197-206): each one exactly when its backing array is non-empty
(JavaScript truthiness of `length`). -/
def workspaceFieldNames (st : SimState) : List String :=
  (if st.logicInputs.length ≠ 0 then ["in"] else []) ++
  (if st.logicOutputs.length ≠ 0 then ["out"] else []) ++
  (if st.displays.length ≠ 0 then ["displays"] else []) ++
  (if st.displaysA.length ≠ 0 then ["displaysA"] else []) ++
  (if st.displaysB.length ≠ 0 then ["displaysB"] else []) ++
  (if st.clocks.length ≠ 0 then ["clocks"] else []) ++
  (if st.gates.length ≠ 0 then ["gates"] else []) ++
  (if st.wires.length ≠ 0 then ["wires"] else [])

/-- The deny-list of the replacer passed to `stringifySmart`
(lines 214-238): the keys whose values are filtered out of the serialized
output. -/
def replacerDenyList : List String :=
  ["output", "input", "nodeSet", "nodeReset", "nodeClock", "nodeD", "nodeT",
   "nodeJ", "nodeK", "nodeQ", "nodeNotQ", "andGate_NotQ", "andGate_Q",
   "ff_D", "orGate", "gateSet", "gateReset", "asyncLatch", "master", "slave",
   "srLatchSync", "startNode", "endNode"]

/-- The replacer function: `true` exactly on the keys it elides (the switch
returning `undefined`). -/
def replacerElides (key : String) : Bool := key ∈ replacerDenyList

/-- A serialized workspace document: top-level fields, each holding an array
of serialized objects, each object a list of key-value pairs (values
abstracted as natural numbers). -/
structure SerializedDoc where
  fields : List (String × List (List (String × Nat)))
deriving DecidableEq, Repr

/-- Serializing one object under the replacer: key-value pairs whose key the
replacer elides are dropped. -/
def serializeObj (obj : List (String × Nat)) : List (String × Nat) :=
  obj.filter (fun f => !replacerElides f.1)

/-- Modelled from the spec: `stringifySmart(workspace, { replacer })` (the
stringifier is not among the given sources) passes every key at every level
of the record through the replacer and elides the keys for which it returns
`undefined`. -/
def stringifySmart (d : SerializedDoc) : SerializedDoc :=
  ⟨(d.fields.filter (fun kv => !replacerElides kv.1)).map
    (fun kv => (kv.1, kv.2.map serializeObj))⟩

/-- All keys occurring in a serialized document, at any level. -/
def docKeys (d : SerializedDoc) : List String :=
  d.fields.map Prod.fst ++
    (d.fields.map (fun kv => (kv.2.map (fun obj => obj.map Prod.fst)).flatten)).flatten

/-- Membership in a conditional singleton-or-empty list. -/
theorem mem_ite_nil {α : Type} (a : α) (c : Prop) [Decidable c] (l : List α) :
    (a ∈ if c then l else []) ↔ c ∧ a ∈ l := by
  split_ifs with h <;> simp [h]

/-! ## Claims C1, C5, C6, C7 -/

/-- A document carrying one clock descriptor (7) and one bar-display
descriptor (9): the input exhibiting the `clocks` loading slip. -/
def C1doc : ParsedDoc := { clocks := some [7], displaysB := some [9] }

/-- C1 (failing input): loading a document whose `clocks` array is `[7]` and
whose `displaysB` array is `[9]` constructs the clock from the `displaysB`
descriptor 9, not from the `clocks` descriptor 7: the `clocks` loop of
`doLoadFromJson` reads `parsedContents.displaysB[i]`. -/
theorem C1_clock_built_from_displaysB :
    ((FileManager.doLoadFromJson (fun _ => some C1doc) (fun _ => [])
      SimState.initial "").finalState.map SimState.clocks) = some [Clock.mk (some 9)] ∧
    C1doc.clocks = some [7] ∧
    Clock.mk (some 9) ≠ Clock.mk (some 7) := by
  refine ⟨by decide, rfl, by decide⟩

/-- C5: when the content does not parse, `doLoadFromJson` returns `false`
normally (no exception escapes) and every component registry, the wire list
and the live-node registry are exactly as before the call. -/
theorem C5_parse_failure_leaves_graph (parse : String → Option ParsedDoc)
    (mkNodes : ParsedDoc → List Nat) (st : SimState) (content : String)
    (h : parse content = none) :
    (FileManager.doLoadFromJson parse mkNodes st content).returnValue = some false ∧
    ((FileManager.doLoadFromJson parse mkNodes st content).finalState.map
      SimState.logicInputs) = some st.logicInputs ∧
    ((FileManager.doLoadFromJson parse mkNodes st content).finalState.map
      SimState.logicOutputs) = some st.logicOutputs ∧
    ((FileManager.doLoadFromJson parse mkNodes st content).finalState.map
      SimState.displays) = some st.displays ∧
    ((FileManager.doLoadFromJson parse mkNodes st content).finalState.map
      SimState.displaysA) = some st.displaysA ∧
    ((FileManager.doLoadFromJson parse mkNodes st content).finalState.map
      SimState.displaysB) = some st.displaysB ∧
    ((FileManager.doLoadFromJson parse mkNodes st content).finalState.map
      SimState.clocks) = some st.clocks ∧
    ((FileManager.doLoadFromJson parse mkNodes st content).finalState.map
      SimState.gates) = some st.gates ∧
    ((FileManager.doLoadFromJson parse mkNodes st content).finalState.map
      SimState.wires) = some st.wires ∧
    ((FileManager.doLoadFromJson parse mkNodes st content).finalState.map
      SimState.liveNodes) = some st.liveNodes := by
  simp [FileManager.doLoadFromJson, h, LoadResult.returnValue, LoadResult.finalState]

/-- A non-trivial simulator state used by the C5 witness. -/
def C5state : SimState :=
  { logicInputs := [⟨5⟩], logicOutputs := [⟨6⟩], displays := [⟨1⟩],
    displaysA := [], displaysB := [⟨2⟩], clocks := [⟨some 3⟩], gates := [⟨4⟩],
    wires := [(1, 2)], liveNodes := [1, 2], isLoadingState := false }

/-- Witness for C5 at a concrete input: an always-failing parse leaves the
populated state `C5state` untouched and reports failure. -/
theorem C5_parse_failure_leaves_graph_witness :
    (FileManager.doLoadFromJson (fun _ => none) (fun _ => []) C5state
      "not-json").returnValue = some false ∧
    ((FileManager.doLoadFromJson (fun _ => none) (fun _ => []) C5state
      "not-json").finalState.map SimState.wires) = some C5state.wires :=
  ⟨(C5_parse_failure_leaves_graph (fun _ => none) (fun _ => []) C5state "not-json" rfl).1,
   (C5_parse_failure_leaves_graph (fun _ => none) (fun _ => []) C5state "not-json" rfl).2.2.2.2.2.2.2.2.1⟩

/-- A document with one clock descriptor, no `displaysB` field, and one
skippable wire entry: the input on which the load throws instead of
returning success. -/
def C6doc : ParsedDoc := { clocks := some [7], wires := some [(1, none)] }

/-- C6: a wire entry whose second id is missing or whose ids do not resolve
is skipped — the loop result is that of the remaining entries — and a load
of a successfully parsed document returns success whenever the clocks loop
does not throw (that is, unless `clocks` is non-empty while `displaysB` is
absent); but at the failing input `C6doc` — clocks `[7]`, no `displaysB`,
wires `[(1, null)]` — the load throws an uncaught `TypeError` at the
`parsedContents.displaysB[i]` read and never returns success as the claim
states. -/
theorem C6_bad_wire_entries_skipped :
    (∀ (registry : List Nat) (pre post : List (Nat × Option Nat))
      (e : Nat × Option Nat), goodWireEntry registry e = false →
        loadWires registry (pre ++ e :: post) = loadWires registry (pre ++ post)) ∧
    (∀ (parse : String → Option ParsedDoc) (mkNodes : ParsedDoc → List Nat)
      (st : SimState) (content : String) (doc : ParsedDoc),
        parse content = some doc →
        ((doc.clocks.getD []).length > 0 && doc.displaysB.isNone) = false →
        (FileManager.doLoadFromJson parse mkNodes st content).returnValue = some true) ∧
    (FileManager.doLoadFromJson (fun _ => some C6doc) (fun _ => [])
      SimState.initial "") = .thrownTypeError := by
  refine ⟨?_, ?_, by decide⟩
  · intro registry pre post e hbad
    induction pre with
    | nil =>
      simp only [List.nil_append]
      match he : e.2 with
      | none => simp [loadWires, he]
      | some id2 =>
        match h1 : findNode registry e.1, h2 : findNode registry id2 with
        | some n1, some n2 =>
          exfalso
          simp [goodWireEntry, he, h1, h2] at hbad
        | some n1, none => simp [loadWires, he, h1, h2]
        | none, some n2 => simp [loadWires, he, h1, h2]
        | none, none => simp [loadWires, he, h1, h2]
    | cons p pre ih =>
      simp only [List.cons_append, loadWires, List.append_eq, ih]
  · intro parse mkNodes st content doc h hcrash
    simp [FileManager.doLoadFromJson, h, hcrash, LoadResult.returnValue]

/-- Witness for C6 at concrete inputs: with live nodes `{1, 2}`, the entry
`(1, none)` and the entry `(1, some 5)` (unresolvable) are both skipped
while `(1, some 2)` still loads, and a load whose document has `displaysB`
present returns success. -/
theorem C6_bad_wire_entries_skipped_witness :
    loadWires [1, 2] [(1, none), (1, some 2)] = loadWires [1, 2] [(1, some 2)] ∧
    loadWires [1, 2] [(1, some 5), (1, some 2)] = loadWires [1, 2] [(1, some 2)] ∧
    (FileManager.doLoadFromJson (fun _ => some C1doc) (fun _ => [])
      SimState.initial "").returnValue = some true :=
  ⟨C6_bad_wire_entries_skipped.1 [1, 2] [] [(1, some 2)] (1, none) (by decide),
   C6_bad_wire_entries_skipped.1 [1, 2] [] [(1, some 2)] (1, some 5) (by decide),
   C6_bad_wire_entries_skipped.2.1 (fun _ => some C1doc) (fun _ => [])
     SimState.initial "" C1doc rfl (by decide)⟩

/-- C7: the saved workspace record contains each of the eight fields exactly
when its backing array is non-empty, and every key of the replacer
deny-list — `startNode` and `endNode` among them — is elided from the
serialized output at every level. -/
theorem C7_workspace_fields_and_denylist (st : SimState) :
    (("in" ∈ workspaceFieldNames st) ↔ st.logicInputs ≠ []) ∧
    (("out" ∈ workspaceFieldNames st) ↔ st.logicOutputs ≠ []) ∧
    (("displays" ∈ workspaceFieldNames st) ↔ st.displays ≠ []) ∧
    (("displaysA" ∈ workspaceFieldNames st) ↔ st.displaysA ≠ []) ∧
    (("displaysB" ∈ workspaceFieldNames st) ↔ st.displaysB ≠ []) ∧
    (("clocks" ∈ workspaceFieldNames st) ↔ st.clocks ≠ []) ∧
    (("gates" ∈ workspaceFieldNames st) ↔ st.gates ≠ []) ∧
    (("wires" ∈ workspaceFieldNames st) ↔ st.wires ≠ []) ∧
    replacerElides "startNode" = true ∧
    replacerElides "endNode" = true ∧
    (∀ (d : SerializedDoc) (k : String), replacerElides k = true →
      k ∉ docKeys (stringifySmart d)) := by
  refine ⟨?_, ?_, ?_, ?_, ?_, ?_, ?_, ?_, by decide, by decide, ?_⟩
  · simp [workspaceFieldNames, mem_ite_nil, List.length_eq_zero]
  · simp [workspaceFieldNames, mem_ite_nil, List.length_eq_zero]
  · simp [workspaceFieldNames, mem_ite_nil, List.length_eq_zero]
  · simp [workspaceFieldNames, mem_ite_nil, List.length_eq_zero]
  · simp [workspaceFieldNames, mem_ite_nil, List.length_eq_zero]
  · simp [workspaceFieldNames, mem_ite_nil, List.length_eq_zero]
  · simp [workspaceFieldNames, mem_ite_nil, List.length_eq_zero]
  · simp [workspaceFieldNames, mem_ite_nil, List.length_eq_zero]
  · intro d k hk hmem
    rw [docKeys] at hmem
    rcases List.mem_append.mp hmem with htop | hnest
    · rcases List.mem_map.mp htop with ⟨kv, hkv, hfst⟩
      rcases List.mem_map.mp ((by simpa [stringifySmart] using hkv :
          kv ∈ (stringifySmart d).fields)) with ⟨kv0, hkv0, hkv0eq⟩
      have : ¬replacerElides kv0.1 = true := by
        have := (List.mem_filter.mp hkv0).2
        simpa using this
      apply this
      rw [show kv0.1 = k from by rw [← hfst, ← hkv0eq]]
      exact hk
    · rcases List.mem_flatten.mp hnest with ⟨l, hl, hkl⟩
      rcases List.mem_map.mp hl with ⟨kv, hkv, hkveq⟩
      rcases List.mem_map.mp ((by simpa [stringifySmart] using hkv :
          kv ∈ (stringifySmart d).fields)) with ⟨kv0, hkv0, hkv0eq⟩
      subst hkveq
      rcases List.mem_flatten.mp hkl with ⟨ks, hks, hkks⟩
      rcases List.mem_map.mp hks with ⟨obj, hobj, hobjeq⟩
      have hobj2 : obj ∈ kv0.2.map serializeObj := by
        rw [← hkv0eq] at hobj
        simpa using hobj
      rcases List.mem_map.mp hobj2 with ⟨obj0, _, hobj0eq⟩
      subst hobjeq
      rcases List.mem_map.mp hkks with ⟨f, hf, hfeq⟩
      rw [← hobj0eq] at hf
      have : ¬replacerElides f.1 = true := by
        have := (List.mem_filter.mp (by simpa [serializeObj] using hf :
          f ∈ obj0.filter (fun f => !replacerElides f.1))).2
        simpa using this
      apply this
      rw [hfeq]
      exact hk

/-- Witness for C7 at a concrete input: a one-wire workspace document loses
its `startNode` key under serialization. -/
theorem C7_workspace_fields_and_denylist_witness :
    "startNode" ∉ docKeys (stringifySmart
      ⟨[("wires", [[("startNode", 1), ("endNode", 2), ("width", 1)]])]⟩) :=
  (C7_workspace_fields_and_denylist SimState.initial).2.2.2.2.2.2.2.2.2.2
    ⟨[("wires", [[("startNode", 1), ("endNode", 2), ("width", 1)]])]⟩
    "startNode" (by decide)
